import Mathlib

/-!
Verification development for the FlashVM core: a runtime that executes
untrusted code snippets inside ephemeral microVMs and returns captured
output plus selected result files (artifacts).

The core itself is written in a systems language and is not part of the
Python-facing excerpt (which holds only tests and examples), so the
operations below are shallow embeddings modelled from the specification,
with the observable shapes (result keys, doctor keys, error messages,
image-reference prefixes) pinned by the repository's tests and examples.
Environmental nondeterminism (image availability, launcher behaviour,
guest program behaviour, clock) is made explicit as `World` inputs, so
every operation is a total function of the request and the world.
-/

namespace FlashVM

/-- Host capability snapshot probed by `doctor`: presence of the VM
launcher (krunvm), the image builder (buildah), hardware virtualization
(kvm), and network reachability. -/
structure HostCaps where
  krunvm : Bool
  buildah : Bool
  kvm : Bool
  online : Bool
deriving Repr, DecidableEq

/-- Modelled from the spec: the DependencyReport returned by the
dependency prober, with the key names used by the repository's tests
(`krunvm`, `buildah`, `kvm`, `offline_mode`, `ready`). -/
structure DependencyReport where
  krunvm : Bool
  buildah : Bool
  kvm : Bool
  offline_mode : Bool
  ready : Bool
deriving Repr, DecidableEq

/-- Modelled from the spec: `doctor` (the dependency probe, §4.1) is a
pure read-only probe of host capabilities. It is a total function: a
missing dependency is reported as a `false` field, never raised as an
error. `ready` holds iff the VM launcher, image builder and hardware
virtualization are all available. -/
def doctor (h : HostCaps) : DependencyReport :=
  { krunvm := h.krunvm
    buildah := h.buildah
    kvm := h.kvm
    offline_mode := !h.online
    ready := h.krunvm && h.buildah && h.kvm }

/-- Error class of `pip_prepare_image` (§4.2): invalid argument for the
explicit empty-package-list validation, and a single build-failure class
covering builder unavailable, network unreachable and package
installation failure. -/
inductive PipError where
  | invalidArgument (msg : String)
  | buildFailure (msg : String)
deriving Repr, DecidableEq

/-- State of the external image-builder capability, as seen by one
`pip_prepare_image` call. -/
structure BuilderWorld where
  builderAvailable : Bool
  networkOk : Bool
  installsOk : Bool
deriving Repr, DecidableEq

/-- Outcome of a `pip_prepare_image` call, instrumented with whether a
build was ever attempted (so that validate-before-build is observable). -/
structure PipOutcome where
  result : Except PipError String
  buildAttempted : Bool

/-- The error message rejecting an empty package list; the repository's
test requires it to mention the packages list and emptiness. -/
def pipEmptyMsg : String := "packages list must not be empty"

/-- The local storage prefix of built derived images, pinned by the
repository's test on `pip_prepare_image` return values. -/
def pipImagePrefixStr : String := "containers-storage:localhost/flashvm:"

/-- Modelled from the spec: tag generation when the caller omits a tag;
the generated tag is unique per call, abstracted here as a constant. -/
def freshTag (tag : Option String) : String :=
  tag.getD "generated-unique-tag"

/-- Modelled from the spec: `pip_prepare_image` (§4.2) builds a derived
image layering the given packages atop a base image. It validates the
package list first: an empty list is rejected with `InvalidArgument`
before any build attempt, regardless of builder availability. All
ordinary build failures surface as the single build-failure class. -/
def pip_prepare_image (b : BuilderWorld) (packages : List String)
    (tag : Option String) : PipOutcome :=
  if packages.isEmpty then
    { result := .error (.invalidArgument pipEmptyMsg), buildAttempted := false }
  else if !b.builderAvailable then
    { result := .error (.buildFailure "image builder unavailable"), buildAttempted := true }
  else if !b.networkOk then
    { result := .error (.buildFailure "network unreachable"), buildAttempted := true }
  else if !b.installsOk then
    { result := .error (.buildFailure "package installation failed"), buildAttempted := true }
  else
    { result := .ok (pipImagePrefixStr ++ freshTag tag), buildAttempted := true }

/-- Whether `sub` occurs as a prefix of `s`, on character lists. -/
def listPrefixOf : List Char → List Char → Bool
  | [], _ => true
  | _ :: _, [] => false
  | a :: as, b :: bs => a = b && listPrefixOf as bs

/-- Whether `sub` occurs as a contiguous run inside `l`. -/
def listContainsRun (sub : List Char) : List Char → Bool
  | [] => listPrefixOf sub []
  | c :: cs => listPrefixOf sub (c :: cs) || listContainsRun sub cs

/-- Whether the string `sub` occurs inside the string `s`. -/
def strMentions (s sub : String) : Bool :=
  listContainsRun sub.data s.data

/-- A file found in the guest output directory after the VM terminates:
path relative to the guest output convention, plus raw byte content. -/
structure GuestFile where
  path : String
  bytes : List Nat
deriving Repr, DecidableEq

/-- Modelled from the spec: shell-style glob matching on character
lists. `*` matches any run of characters other than the path separator;
any other pattern character matches itself. The first argument is
recursion fuel; every step shrinks pattern plus remaining path, so
`pattern length + path length + 1` units always suffice. -/
def globMatchFuel : Nat → List Char → List Char → Bool
  | 0, _, _ => false
  | _ + 1, [], [] => true
  | _ + 1, [], _ :: _ => false
  | n + 1, '*' :: ps, [] => globMatchFuel n ps []
  | n + 1, '*' :: ps, c :: cs =>
      globMatchFuel n ps (c :: cs) ||
        (c != '/' && globMatchFuel n ('*' :: ps) cs)
  | _ + 1, _ :: _, [] => false
  | n + 1, p :: ps, c :: cs => p == c && globMatchFuel n ps cs

/-- Whether a guest file path matches one glob pattern. -/
def globMatch (pat path : String) : Bool :=
  globMatchFuel (pat.length + path.length + 1) pat.data path.data

/-- All guest files matching one pattern, in discovery order. -/
def matchedFiles (fs : List GuestFile) (pat : String) : List GuestFile :=
  fs.filter (fun f => globMatch pat f.path)

/-- Concatenated matches of all patterns, ordered by pattern and then by
discovery order within each pattern (before deduplication). -/
def collectMatches (fs : List GuestFile) : List String → List GuestFile
  | [] => []
  | p :: ps => matchedFiles fs p ++ collectMatches fs ps

/-- Drop files whose path was already seen, keeping first occurrences. -/
def dedupByPath : List GuestFile → List String → List GuestFile
  | [], _ => []
  | f :: l, seen =>
      if f.path ∈ seen then dedupByPath l seen
      else f :: dedupByPath l (f.path :: seen)

/-- An artifact returned to the caller: guest path, size, and content
that is present only when the file is small enough to inline. -/
structure Artifact where
  guest_path : String
  size_bytes : Nat
  content : Option (List Nat)
deriving Repr, DecidableEq

/-- Artifact metadata for one matched guest file: size is always
reported; bytes are inlined only when the size is at most the inline
threshold. -/
def toArtifact (thr : Nat) (f : GuestFile) : Artifact :=
  { guest_path := f.path
    size_bytes := f.bytes.length
    content := if f.bytes.length ≤ thr then some f.bytes else none }

/-- Modelled from the spec: the Artifact Extractor (§4.4). For each
pattern in order, match files in the guest output area; deduplicate
across patterns preserving first-match order; report size always and
inline content only up to the threshold. No match yields an empty
sequence, not an error. -/
def extract (fs : List GuestFile) (patterns : List String) (thr : Nat) :
    List Artifact :=
  (dedupByPath (collectMatches fs patterns) []).map (toArtifact thr)

/-- Spec-side description used to state claim C7: deduplication of a
list of paths keeping the first occurrence of each, in order, given the
set of paths already seen. -/
def firstOccAux : List String → List String → List String
  | [], _ => []
  | x :: xs, seen =>
      if x ∈ seen then firstOccAux xs seen
      else x :: firstOccAux xs (x :: seen)

/-- Spec-side description used to state claim C7: first-occurrence
deduplication of a list of paths. -/
def firstOcc (l : List String) : List String := firstOccAux l []

/-- Resource envelope for one execution (§3 ResourceConfig). -/
structure ResourceConfig where
  cpu_count : Nat
  memory_mb : Nat
  network_enabled : Bool
  environment : List (String × String)
  timeout_seconds : Nat
  working_directory : String
  extra_launch_args : List String
deriving Repr, DecidableEq

/-- Uniqueness of environment-variable names in a configuration. -/
def nodupKeys : List (String × String) → Bool
  | [] => true
  | (k, _) :: xs => !(xs.any fun kv => kv.fst == k) && nodupKeys xs

/-- Validity of a ResourceConfig (§3 invariant): numeric fields positive
and environment names unique, established at the boundary before the
Orchestrator is reached. -/
def ResourceConfig.validB (c : ResourceConfig) : Bool :=
  decide (0 < c.cpu_count) && decide (0 < c.memory_mb) &&
    decide (0 < c.timeout_seconds) && nodupKeys c.environment

/-- One execution request (§3 ExecutionRequest): code, resolved
configuration, explicit-or-default image, artifact glob patterns, and
the inline threshold for artifact content. -/
structure ExecutionRequest where
  code : String
  config : ResourceConfig
  image : Option String
  patterns : List String
  maxBytesInline : Nat

/-- The sole return value of an execution (§3 ExecutionResult). -/
structure ExecutionResult where
  stdout : String
  stderr : String
  exit_code : Int
  execution_time_ms : Nat
  image_used : String
  artifacts : List Artifact
deriving Repr, DecidableEq

/-- Caller-facing dictionary values (§6 caller-facing result shape). -/
inductive Value where
  | vstr (s : String)
  | vint (i : Int)
  | vnum (n : Nat)
  | varts (l : List Artifact)

/-- The caller-facing mapping an ExecutionResult is returned as (§6). -/
def resultDict (r : ExecutionResult) : List (String × Value) :=
  [("stdout", .vstr r.stdout), ("stderr", .vstr r.stderr),
    ("exit_code", .vint r.exit_code),
    ("execution_time_ms", .vnum r.execution_time_ms),
    ("image_used", .vstr r.image_used), ("artifacts", .varts r.artifacts)]

/-- The keys every well-formed result mapping must carry. -/
def requiredResultKeys : List String :=
  ["stdout", "stderr", "exit_code", "execution_time_ms", "image_used",
    "artifacts"]

/-- Well-formedness of a result: its caller-facing mapping carries every
required key. -/
def hasAllKeys (r : ExecutionResult) : Bool :=
  requiredResultKeys.all fun k => ((resultDict r).lookup k).isSome

/-- The defined infrastructure error taxonomy (§7): these five kinds are
the only errors an execution may raise. -/
inductive InfraError where
  | configurationError (msg : String)
  | imageResolutionError (msg : String)
  | imagePreparationError (msg : String)
  | launchError (msg : String)
  | extractionError (msg : String)
deriving Repr, DecidableEq

/-- The taxonomy name of an infrastructure error. -/
def InfraError.kind : InfraError → String
  | .configurationError _ => "ConfigurationError"
  | .imageResolutionError _ => "ImageResolutionError"
  | .imagePreparationError _ => "ImagePreparationError"
  | .launchError _ => "LaunchError"
  | .extractionError _ => "ExtractionError"

/-- The names of the five defined infrastructure error kinds (§7). -/
def definedErrorKinds : List String :=
  ["ConfigurationError", "ImageResolutionError", "ImagePreparationError",
    "LaunchError", "ExtractionError"]

/-- Behaviour of the guest program once the VM is running: how many
milliseconds it needs to finish on its own (`none` for never), its exit
code, and the stdout/stderr bytes captured within the first `t`
milliseconds of guest time. -/
structure GuestOutcome where
  msNeeded : Option Nat
  exitCode : Int
  outAt : Nat → String
  errAt : Nat → String

/-- Outcome of instantiating the VM: a running guest, a launcher-level
crash of the VM process, or a launch failure (no VM boots). -/
inductive LaunchOutcome where
  | ok (g : GuestOutcome)
  | crash (diag : String)
  | fail (msg : String)

/-- The environment one execution runs against: image resolvability and
preparability, launcher behaviour, boot latency, the guest output
directory contents after termination, and whether the extraction
subsystem works. -/
structure World where
  imageResolvable : Bool
  imageReady : Bool
  launch : LaunchOutcome
  bootMs : Nat
  guestFs : List GuestFile
  extractionOk : Bool

/-- An execution call observed from outside: its returned value or
raised error, whether a VM instance was ever allocated, whether it was
released before the call returned, and the wall-clock duration of the
whole call in milliseconds. -/
structure ExecTrace where
  result : Except InfraError ExecutionResult
  vmAllocated : Bool
  vmReleased : Bool
  callMs : Nat

/-- The process-wide default image used when the caller gives none. -/
def defaultImage : String := "docker.io/library/python:3.12-slim"

/-- Modelled from the spec: the distinguished non-zero exit status that
signals the deadline elapsed (§4.3 Running to TimedOut). -/
def timeoutExitCode : Int := 124

/-- Modelled from the spec: the distinguished exit status reported when
the VM process itself crashes (§4.3 Running to Crashed). -/
def crashExitCode : Int := -1

/-- Modelled from the spec: the bounded grace period, in milliseconds,
between the deadline elapsing and the call returning after forced
termination (§5). -/
def graceMs : Nat := 2000

/-- Assemble the terminal result of a terminated VM: runs the Artifact
Extractor over the guest output area, and surfaces an extraction
subsystem failure as the defined ExtractionError. -/
def finalize (w : World) (req : ExecutionRequest) (code : Int)
    (out err : String) (ems : Nat) : Except InfraError ExecutionResult :=
  if w.extractionOk then
    .ok { stdout := out, stderr := err, exit_code := code
          execution_time_ms := ems
          image_used := req.image.getD defaultImage
          artifacts := extract w.guestFs req.patterns req.maxBytesInline }
  else
    .error (.extractionError "artifact extraction subsystem failure")

/-- Modelled from the spec: the Execution Orchestrator state machine
(§4.3), `Idle` to `ImageReady` to `Booted` to `Running` to one of
`Completed`, `TimedOut` or `Crashed`, then `Torn Down`. Invalid
configurations are rejected at the boundary; image resolution and
preparation failures terminate before any VM resource is allocated;
once instantiation is attempted the VM is released on every exit path.
The deadline timer starts at boot completion, so boot latency is
excluded from the guest's allotted time; on timeout the VM is forcibly
terminated within the grace period and the partial output captured up
to the deadline is returned with the distinguished timeout status. -/
def executeTrace (w : World) (req : ExecutionRequest) : ExecTrace :=
  match req.config.validB, w.imageResolvable, w.imageReady with
  | false, _, _ =>
      { result := .error (.configurationError "invalid resource configuration")
        vmAllocated := false, vmReleased := false, callMs := 0 }
  | true, false, _ =>
      { result := .error (.imageResolutionError "invalid image reference")
        vmAllocated := false, vmReleased := false, callMs := 0 }
  | true, true, false =>
      { result := .error (.imagePreparationError "image could not be made ready")
        vmAllocated := false, vmReleased := false, callMs := 0 }
  | true, true, true =>
      match w.launch with
      | .fail msg =>
          { result := .error (.launchError msg)
            vmAllocated := true, vmReleased := true, callMs := w.bootMs }
      | .crash diag =>
          { result := finalize w req crashExitCode "" diag 0
            vmAllocated := true, vmReleased := true, callMs := w.bootMs }
      | .ok g =>
          match g.msNeeded with
          | some m =>
              if m ≤ req.config.timeout_seconds * 1000 then
                { result := finalize w req g.exitCode (g.outAt m) (g.errAt m) m
                  vmAllocated := true, vmReleased := true
                  callMs := w.bootMs + m }
              else
                { result := finalize w req timeoutExitCode
                    (g.outAt (req.config.timeout_seconds * 1000))
                    (g.errAt (req.config.timeout_seconds * 1000))
                    (req.config.timeout_seconds * 1000)
                  vmAllocated := true, vmReleased := true
                  callMs := w.bootMs + req.config.timeout_seconds * 1000 + graceMs }
          | none =>
              { result := finalize w req timeoutExitCode
                  (g.outAt (req.config.timeout_seconds * 1000))
                  (g.errAt (req.config.timeout_seconds * 1000))
                  (req.config.timeout_seconds * 1000)
                vmAllocated := true, vmReleased := true
                callMs := w.bootMs + req.config.timeout_seconds * 1000 + graceMs }

/-- The public entry point: the returned value or raised error of one
execution call. -/
def execute (w : World) (req : ExecutionRequest) :
    Except InfraError ExecutionResult :=
  (executeTrace w req).result

/-- Whether the guest work requires strictly more time than the given
deadline in milliseconds (including never finishing at all). -/
def needsMoreThan (g : GuestOutcome) (deadline : Nat) : Prop :=
  ∀ m, g.msNeeded = some m → deadline < m

/-- A valid baseline configuration used by concrete witnesses. -/
def okCfg : ResourceConfig :=
  { cpu_count := 1, memory_mb := 512, network_enabled := false
    environment := [("CUSTOM_VAR", "test_value")], timeout_seconds := 30
    working_directory := "/work", extra_launch_args := [] }

/-- A benign environment, parameterised by the launcher outcome, used by
concrete witnesses. -/
def mkWorld (l : LaunchOutcome) : World :=
  { imageResolvable := true, imageReady := true, launch := l
    bootMs := 120, guestFs := [⟨"out/data.csv", [104, 105]⟩]
    extractionOk := true }

/-- A guest that prints and exits 0 after half a second. -/
def okGuest : GuestOutcome :=
  { msNeeded := some 500, exitCode := 0
    outAt := fun _ => "4", errAt := fun _ => "" }

/-- A guest that dies on an uncaught exception, leaving a traceback. -/
def failGuest : GuestOutcome :=
  { msNeeded := some 200, exitCode := 1
    outAt := fun _ => ""
    errAt := fun _ => "ZeroDivisionError: division by zero" }

/-- A guest that never finishes on its own. -/
def loopGuest : GuestOutcome :=
  { msNeeded := none, exitCode := 0
    outAt := fun _ => "Starting long operation", errAt := fun _ => "" }

/-- A guest that completes instantly, within the clock resolution. -/
def instantGuest : GuestOutcome :=
  { msNeeded := some 0, exitCode := 0
    outAt := fun _ => "", errAt := fun _ => "" }

/-- A baseline request used by concrete witnesses. -/
def okReq : ExecutionRequest :=
  { code := "print(2+2)", config := okCfg, image := none
    patterns := ["out/*.csv"], maxBytesInline := 4096 }

end FlashVM

namespace FlashVM

/-- Claim C8: every `doctor` report has `ready = true` exactly when the
VM launcher (krunvm), image builder (buildah) and hardware
virtualization (kvm) fields all hold; `doctor` is a total function into
`DependencyReport`, so a missing dependency is a `false` field, never a
raised error. -/
theorem doctor_ready_iff (h : HostCaps) :
    ((doctor h).ready = true) ↔
      ((doctor h).krunvm = true ∧ (doctor h).buildah = true ∧
        (doctor h).kvm = true) := by
  simp [doctor, Bool.and_eq_true, and_assoc]

/-- Claim C5: for the empty package list, `pip_prepare_image` fails with
an explicit invalid-argument error whose message mentions the packages
list and emptiness, and no build is attempted, whatever the builder
state and whatever tag is supplied. -/
theorem pip_prepare_image_empty (b : BuilderWorld) (tag : Option String) :
    (pip_prepare_image b [] tag).result
        = .error (.invalidArgument pipEmptyMsg) ∧
      (pip_prepare_image b [] tag).buildAttempted = false ∧
      strMentions pipEmptyMsg "empty" = true ∧
      strMentions pipEmptyMsg "packages" = true := by
  refine ⟨rfl, rfl, by decide, by decide⟩

theorem mem_dedupByPath {f : GuestFile} :
    ∀ {l : List GuestFile} {seen : List String},
      f ∈ dedupByPath l seen → f ∈ l := by
  intro l
  induction l with
  | nil => intro seen h; simp [dedupByPath] at h
  | cons g l ih =>
      intro seen h
      simp only [dedupByPath] at h
      split at h
      · exact List.mem_cons_of_mem _ (ih h)
      · rcases List.mem_cons.mp h with h | h
        · exact h ▸ List.mem_cons_self _ _
        · exact List.mem_cons_of_mem _ (ih h)

theorem mem_collectMatches {f : GuestFile} (fs : List GuestFile) :
    ∀ ps : List String, f ∈ collectMatches fs ps → f ∈ fs := by
  intro ps
  induction ps with
  | nil => intro h; simp [collectMatches] at h
  | cons p ps ih =>
      intro h
      rcases List.mem_append.mp h with h | h
      · exact (List.mem_filter.mp h).1
      · exact ih h

theorem dedupByPath_map_path :
    ∀ (l : List GuestFile) (seen : List String),
      (dedupByPath l seen).map GuestFile.path
        = firstOccAux (l.map GuestFile.path) seen := by
  intro l
  induction l with
  | nil => intro seen; simp [dedupByPath, firstOccAux]
  | cons f l ih =>
      intro seen
      simp only [dedupByPath, List.map_cons, firstOccAux]
      split
      · exact ih seen
      · simp [ih]

theorem mem_firstOccAux_not_seen {x : String} :
    ∀ {l seen : List String}, x ∈ firstOccAux l seen → x ∉ seen := by
  intro l
  induction l with
  | nil => intro seen h; simp [firstOccAux] at h
  | cons y l ih =>
      intro seen h
      simp only [firstOccAux] at h
      split at h
      · exact ih h
      · rcases List.mem_cons.mp h with h | h
        · subst h; assumption
        · intro hx
          exact ih h (List.mem_cons_of_mem _ hx)

theorem firstOccAux_nodup :
    ∀ (l seen : List String), (firstOccAux l seen).Nodup := by
  intro l
  induction l with
  | nil => intro seen; simp [firstOccAux]
  | cons x l ih =>
      intro seen
      simp only [firstOccAux]
      split
      · exact ih seen
      · refine List.nodup_cons.mpr ⟨?_, ih _⟩
        intro hx
        exact mem_firstOccAux_not_seen hx (List.mem_cons_self _ _)

theorem collectMatches_eq_nil {fs : List GuestFile} :
    ∀ {ps : List String}, (∀ p ∈ ps, matchedFiles fs p = []) →
      collectMatches fs ps = [] := by
  intro ps
  induction ps with
  | nil => intro _; rfl
  | cons p ps ih =>
      intro h
      simp only [collectMatches]
      rw [h p (List.mem_cons_self _ _), ih fun q hq => h q (List.mem_cons_of_mem _ hq)]
      rfl

/-- Claim C6: every artifact returned by extraction has its `content`
field present exactly when its size is at most the inline threshold, and
it reports the accurate byte size of a matched guest file, whose bytes
are inlined only in the small case. -/
theorem extract_inline_iff (fs : List GuestFile) (patterns : List String)
    (thr : Nat) (a : Artifact) (ha : a ∈ extract fs patterns thr) :
    (a.content.isSome = true ↔ a.size_bytes ≤ thr) ∧
      ∃ f ∈ fs, a.guest_path = f.path ∧ a.size_bytes = f.bytes.length ∧
        a.content = if f.bytes.length ≤ thr then some f.bytes else none := by
  rcases List.mem_map.mp ha with ⟨f, hf, rfl⟩
  have hffs : f ∈ fs := mem_collectMatches fs patterns (mem_dedupByPath hf)
  constructor
  · by_cases h : f.bytes.length ≤ thr
    · simp [toArtifact, h]
    · simp [toArtifact, h]
  · exact ⟨f, hffs, rfl, rfl, rfl⟩

/-- Claim C6 witness: a two-byte file against a one-byte threshold is
returned with accurate size and no inlined content. -/
theorem extract_inline_iff_witness :
    (((toArtifact 1 ⟨"out/data.csv", [7, 8]⟩).content.isSome = true ↔
        (toArtifact 1 ⟨"out/data.csv", [7, 8]⟩).size_bytes ≤ 1) ∧
      ∃ f ∈ [GuestFile.mk "out/data.csv" [7, 8]],
        (toArtifact 1 ⟨"out/data.csv", [7, 8]⟩).guest_path = f.path ∧
        (toArtifact 1 ⟨"out/data.csv", [7, 8]⟩).size_bytes = f.bytes.length ∧
        (toArtifact 1 ⟨"out/data.csv", [7, 8]⟩).content
          = if f.bytes.length ≤ 1 then some f.bytes else none) :=
  extract_inline_iff [⟨"out/data.csv", [7, 8]⟩] ["out/*.csv"] 1
    (toArtifact 1 ⟨"out/data.csv", [7, 8]⟩) (by decide)

/-- Claim C7: extraction returns the matched files deduplicated across
patterns in first-match order (by pattern, then discovery order within a
pattern), its returned paths carry no duplicates, and when no pattern
matches anything it returns the empty sequence rather than an error. -/
theorem extract_order_dedup (fs : List GuestFile) (patterns : List String)
    (thr : Nat) :
    ((extract fs patterns thr).map Artifact.guest_path
        = firstOcc ((collectMatches fs patterns).map GuestFile.path)) ∧
      ((extract fs patterns thr).map Artifact.guest_path).Nodup ∧
      ((∀ p ∈ patterns, matchedFiles fs p = []) →
        extract fs patterns thr = []) := by
  have hmap : (extract fs patterns thr).map Artifact.guest_path
      = firstOcc ((collectMatches fs patterns).map GuestFile.path) := by
    simp only [extract, List.map_map]
    have : (Artifact.guest_path ∘ toArtifact thr) = GuestFile.path := rfl
    rw [this, dedupByPath_map_path]
    rfl
  refine ⟨hmap, ?_, ?_⟩
  · rw [hmap]; exact firstOccAux_nodup _ _
  · intro h
    simp [extract, collectMatches_eq_nil h, dedupByPath]

/-- Claim C7 witness: with a single non-matching pattern over a single
file, extraction returns the empty sequence. -/
theorem extract_order_dedup_witness :
    extract [⟨"a.txt", [1]⟩] ["out/*.csv"] 5 = [] :=
  (extract_order_dedup [⟨"a.txt", [1]⟩] ["out/*.csv"] 5).2.2 (by decide)

theorem hasAllKeys_true (r : ExecutionResult) : hasAllKeys r = true := rfl

theorem finalize_ok (w : World) (req : ExecutionRequest) (code : Int)
    (out err : String) (ems : Nat) (hx : w.extractionOk = true) :
    finalize w req code out err ems
      = .ok { stdout := out, stderr := err, exit_code := code
              execution_time_ms := ems
              image_used := req.image.getD defaultImage
              artifacts := extract w.guestFs req.patterns req.maxBytesInline } := by
  unfold finalize
  rw [hx]
  exact if_pos rfl

theorem finalize_err (w : World) (req : ExecutionRequest) (code : Int)
    (out err : String) (ems : Nat) (hx : w.extractionOk = false) :
    finalize w req code out err ems
      = .error (.extractionError "artifact extraction subsystem failure") := by
  unfold finalize
  rw [hx]
  exact if_neg (by decide)

theorem kind_mem_definedErrorKinds (e : InfraError) :
    e.kind ∈ definedErrorKinds := by
  cases e
  · exact (by decide : "ConfigurationError" ∈ definedErrorKinds)
  · exact (by decide : "ImageResolutionError" ∈ definedErrorKinds)
  · exact (by decide : "ImagePreparationError" ∈ definedErrorKinds)
  · exact (by decide : "LaunchError" ∈ definedErrorKinds)
  · exact (by decide : "ExtractionError" ∈ definedErrorKinds)

theorem finalize_structured (w : World) (req : ExecutionRequest)
    (code : Int) (out err : String) (ems : Nat) :
    (∃ r, finalize w req code out err ems = .ok r ∧ hasAllKeys r = true) ∨
      (∃ e, finalize w req code out err ems = .error e ∧
        e.kind ∈ definedErrorKinds) := by
  cases hx : w.extractionOk
  · right
    exact ⟨_, finalize_err w req code out err ems hx,
      kind_mem_definedErrorKinds _⟩
  · left
    exact ⟨_, finalize_ok w req code out err ems hx, rfl⟩

theorem executeTrace_completed (w : World) (req : ExecutionRequest)
    (g : GuestOutcome) (m : Nat)
    (hv : req.config.validB = true)
    (hres : w.imageResolvable = true)
    (hready : w.imageReady = true)
    (hl : w.launch = .ok g)
    (hm : g.msNeeded = some m)
    (hdl : m ≤ req.config.timeout_seconds * 1000) :
    executeTrace w req
      = { result := finalize w req g.exitCode (g.outAt m) (g.errAt m) m
          vmAllocated := true, vmReleased := true
          callMs := w.bootMs + m } := by
  simp only [executeTrace, hv, hres, hready, hl, hm]
  rw [if_pos hdl]

theorem executeTrace_timedOut (w : World) (req : ExecutionRequest)
    (g : GuestOutcome)
    (hv : req.config.validB = true)
    (hres : w.imageResolvable = true)
    (hready : w.imageReady = true)
    (hl : w.launch = .ok g)
    (hneed : needsMoreThan g (req.config.timeout_seconds * 1000)) :
    executeTrace w req
      = { result := finalize w req timeoutExitCode
            (g.outAt (req.config.timeout_seconds * 1000))
            (g.errAt (req.config.timeout_seconds * 1000))
            (req.config.timeout_seconds * 1000)
          vmAllocated := true, vmReleased := true
          callMs := w.bootMs + req.config.timeout_seconds * 1000 + graceMs } := by
  cases hm : g.msNeeded with
  | some m =>
      simp only [executeTrace, hv, hres, hready, hl, hm]
      rw [if_neg (not_le.mpr (hneed m hm))]
  | none =>
      simp only [executeTrace, hv, hres, hready, hl, hm]

/-- Claim C1: for every valid ResourceConfig, an execution call either
returns a well-formed result carrying all six required keys of the
caller-facing mapping, or raises one of the five defined infrastructure
error kinds; `executeTrace` is a total function, so no unstructured
failure or partial result is possible. -/
theorem execute_structured (w : World) (req : ExecutionRequest)
    (hv : req.config.validB = true) :
    (∃ r, (executeTrace w req).result = .ok r ∧ hasAllKeys r = true) ∨
      (∃ e, (executeTrace w req).result = .error e ∧
        e.kind ∈ definedErrorKinds) := by
  cases hres : w.imageResolvable
  · right
    refine ⟨.imageResolutionError "invalid image reference", ?_,
      kind_mem_definedErrorKinds _⟩
    simp only [executeTrace, hv, hres]
  · cases hready : w.imageReady
    · right
      refine ⟨.imagePreparationError "image could not be made ready", ?_,
        kind_mem_definedErrorKinds _⟩
      simp only [executeTrace, hv, hres, hready]
    · cases hl : w.launch with
      | fail msg =>
          right
          refine ⟨.launchError msg, ?_, kind_mem_definedErrorKinds _⟩
          simp only [executeTrace, hv, hres, hready, hl]
      | crash diag =>
          have heq : (executeTrace w req).result
              = finalize w req crashExitCode "" diag 0 := by
            simp only [executeTrace, hv, hres, hready, hl]
          rw [heq]
          exact finalize_structured w req _ _ _ _
      | ok g =>
          cases hm : g.msNeeded with
          | some m =>
              by_cases hdl : m ≤ req.config.timeout_seconds * 1000
              · rw [executeTrace_completed w req g m hv hres hready hl hm hdl]
                exact finalize_structured w req _ _ _ _
              · rw [executeTrace_timedOut w req g hv hres hready hl
                  (fun k hk => by rw [hm] at hk; cases hk; exact not_le.mp hdl)]
                exact finalize_structured w req _ _ _ _
          | none =>
              rw [executeTrace_timedOut w req g hv hres hready hl
                (fun k hk => by rw [hm] at hk; cases hk)]
              exact finalize_structured w req _ _ _ _

/-- Claim C1 witness: a benign environment with a completing guest
yields the well-formed side of the disjunction. -/
theorem execute_structured_witness :
    (∃ r, (executeTrace (mkWorld (.ok okGuest)) okReq).result = .ok r ∧
        hasAllKeys r = true) ∨
      (∃ e, (executeTrace (mkWorld (.ok okGuest)) okReq).result = .error e ∧
        e.kind ∈ definedErrorKinds) :=
  execute_structured (mkWorld (.ok okGuest)) okReq (by decide)

/-- Claim C2: a guest-side failure (nonzero guest exit with a diagnostic
on its streams, completing before the deadline) is returned as a
structured result, never raised: the result carries the guest's nonzero
exit code and non-empty diagnostic content on stderr or stdout. -/
theorem guest_failure_structured (w : World) (req : ExecutionRequest)
    (g : GuestOutcome) (m : Nat)
    (hv : req.config.validB = true)
    (hres : w.imageResolvable = true)
    (hready : w.imageReady = true)
    (hx : w.extractionOk = true)
    (hl : w.launch = .ok g)
    (hm : g.msNeeded = some m)
    (hdl : m ≤ req.config.timeout_seconds * 1000)
    (hc : g.exitCode ≠ 0)
    (hd : g.errAt m ≠ "" ∨ g.outAt m ≠ "") :
    ∃ r, (executeTrace w req).result = .ok r ∧ r.exit_code ≠ 0 ∧
      (r.stderr ≠ "" ∨ r.stdout ≠ "") := by
  rw [executeTrace_completed w req g m hv hres hready hl hm hdl,
    finalize_ok w req _ _ _ _ hx]
  exact ⟨_, rfl, hc, hd⟩

/-- Claim C2 witness: a guest dying on an uncaught ZeroDivisionError is
returned as a structured result with nonzero exit and a traceback. -/
theorem guest_failure_structured_witness :
    ∃ r, (executeTrace (mkWorld (.ok failGuest)) okReq).result = .ok r ∧
      r.exit_code ≠ 0 ∧ (r.stderr ≠ "" ∨ r.stdout ≠ "") :=
  guest_failure_structured (mkWorld (.ok failGuest)) okReq failGuest 200
    (by decide) rfl rfl rfl rfl rfl (by decide) (by decide)
    (Or.inl (by decide))

/-- Claim C3: when the guest work needs more than the deadline, the call
returns within the bounded grace period past boot plus deadline (it
never blocks indefinitely), and the value is a well-formed result
carrying the partial stdout/stderr captured up to the deadline and the
distinguished non-zero timeout exit status. -/
theorem timeout_bounded (w : World) (req : ExecutionRequest)
    (g : GuestOutcome)
    (hv : req.config.validB = true)
    (hres : w.imageResolvable = true)
    (hready : w.imageReady = true)
    (hx : w.extractionOk = true)
    (hl : w.launch = .ok g)
    (hneed : needsMoreThan g (req.config.timeout_seconds * 1000)) :
    (executeTrace w req).callMs
        ≤ w.bootMs + req.config.timeout_seconds * 1000 + graceMs ∧
      ∃ r, (executeTrace w req).result = .ok r ∧
        r.exit_code = timeoutExitCode ∧ timeoutExitCode ≠ 0 ∧
        r.stdout = g.outAt (req.config.timeout_seconds * 1000) ∧
        r.stderr = g.errAt (req.config.timeout_seconds * 1000) ∧
        hasAllKeys r = true := by
  rw [executeTrace_timedOut w req g hv hres hready hl hneed,
    finalize_ok w req _ _ _ _ hx]
  exact ⟨le_refl _, _, rfl, rfl, by decide, rfl, rfl, rfl⟩

/-- Claim C3 witness: a guest that never finishes against a 30-second
deadline is forcibly terminated; the call duration stays within boot
plus deadline plus grace, and the timeout result carries the partial
output. -/
theorem timeout_bounded_witness :
    (executeTrace (mkWorld (.ok loopGuest)) okReq).callMs
        ≤ 120 + 30000 + graceMs ∧
      ∃ r, (executeTrace (mkWorld (.ok loopGuest)) okReq).result = .ok r ∧
        r.exit_code = timeoutExitCode ∧ timeoutExitCode ≠ 0 ∧
        r.stdout = loopGuest.outAt 30000 ∧
        r.stderr = loopGuest.errAt 30000 ∧
        hasAllKeys r = true :=
  timeout_bounded (mkWorld (.ok loopGuest)) okReq loopGuest (by decide)
    rfl rfl rfl rfl (fun m hm => Option.noConfusion hm)

theorem executeTrace_release_eq (w : World) (req : ExecutionRequest) :
    (executeTrace w req).vmReleased = (executeTrace w req).vmAllocated := by
  cases hv : req.config.validB
  · simp only [executeTrace, hv]
  · cases hres : w.imageResolvable
    · simp only [executeTrace, hv, hres]
    · cases hready : w.imageReady
      · simp only [executeTrace, hv, hres, hready]
      · cases hl : w.launch with
        | fail msg => simp only [executeTrace, hv, hres, hready, hl]
        | crash diag => simp only [executeTrace, hv, hres, hready, hl]
        | ok g =>
            cases hm : g.msNeeded with
            | some m =>
                by_cases hdl : m ≤ req.config.timeout_seconds * 1000
                · rw [executeTrace_completed w req g m hv hres hready hl hm hdl]
                · rw [executeTrace_timedOut w req g hv hres hready hl
                    (fun k hk => by rw [hm] at hk; cases hk; exact not_le.mp hdl)]
            | none =>
                rw [executeTrace_timedOut w req g hv hres hready hl
                  (fun k hk => by rw [hm] at hk; cases hk)]

/-- Claim C4: on every exit path of the orchestrator state machine —
success, timeout, crash, launch failure and every error raised before
`Running` is reached — a VM instance that was allocated is released
before the call returns, so no VM instance outlives the call. -/
theorem vm_never_outlives_call (w : World) (req : ExecutionRequest)
    (h : (executeTrace w req).vmAllocated = true) :
    (executeTrace w req).vmReleased = true := by
  rw [executeTrace_release_eq]
  exact h

/-- Claim C4 witness: even when the launch itself fails, the partially
allocated VM resources are released before the error is returned. -/
theorem vm_never_outlives_call_witness :
    (executeTrace (mkWorld (.fail "insufficient host memory")) okReq).vmReleased
      = true :=
  vm_never_outlives_call (mkWorld (.fail "insufficient host memory")) okReq rfl

/-- Claim C9: the empty code string is not a rejected input: with a
valid configuration and a benign environment, running empty code yields
a well-formed result mapping carrying all required keys, whatever the
guest outcome for it is. -/
theorem empty_code_wellformed (w : World) (cfg : ResourceConfig)
    (img : Option String) (pats : List String) (thr : Nat)
    (g : GuestOutcome)
    (hv : cfg.validB = true)
    (hres : w.imageResolvable = true)
    (hready : w.imageReady = true)
    (hx : w.extractionOk = true)
    (hl : w.launch = .ok g) :
    ∃ r, (executeTrace w ⟨"", cfg, img, pats, thr⟩).result = .ok r ∧
      hasAllKeys r = true := by
  cases hm : g.msNeeded with
  | some m =>
      by_cases hdl : m ≤ cfg.timeout_seconds * 1000
      · rw [executeTrace_completed w ⟨"", cfg, img, pats, thr⟩ g m hv hres
          hready hl hm hdl, finalize_ok _ _ _ _ _ _ hx]
        exact ⟨_, rfl, rfl⟩
      · rw [executeTrace_timedOut w ⟨"", cfg, img, pats, thr⟩ g hv hres
          hready hl (fun k hk => by rw [hm] at hk; cases hk; exact not_le.mp hdl),
          finalize_ok _ _ _ _ _ _ hx]
        exact ⟨_, rfl, rfl⟩
  | none =>
      rw [executeTrace_timedOut w ⟨"", cfg, img, pats, thr⟩ g hv hres
        hready hl (fun k hk => by rw [hm] at hk; cases hk),
        finalize_ok _ _ _ _ _ _ hx]
      exact ⟨_, rfl, rfl⟩

/-- Claim C9 witness: running the empty string in a benign environment
returns a well-formed result. -/
theorem empty_code_wellformed_witness :
    ∃ r, (executeTrace (mkWorld (.ok okGuest))
        ⟨"", okCfg, none, ["out/*.csv"], 4096⟩).result = .ok r ∧
      hasAllKeys r = true :=
  empty_code_wellformed (mkWorld (.ok okGuest)) okCfg none ["out/*.csv"]
    4096 okGuest (by decide) rfl rfl rfl rfl

/-- Claim C10 counterexample: a guest that completes successfully within
the clock resolution yields a well-formed result with `exit_code = 0`
and `execution_time_ms = 0`, so strict positivity of the reported time
does not follow from the specification, which only requires a
non-negative number. -/
theorem exec_time_zero_counterexample :
    ∃ r, (executeTrace (mkWorld (.ok instantGuest)) okReq).result = .ok r ∧
      r.exit_code = 0 ∧ r.execution_time_ms = 0 :=
  ⟨_, rfl, rfl, rfl⟩

/-- Claim C10 as amended: the reported execution time equals the guest's
elapsed milliseconds, hence is non-negative by type and strictly
positive whenever the guest ran for at least one millisecond. -/
theorem exec_time_positive_when_elapsed (w : World)
    (req : ExecutionRequest) (g : GuestOutcome) (m : Nat)
    (hv : req.config.validB = true)
    (hres : w.imageResolvable = true)
    (hready : w.imageReady = true)
    (hx : w.extractionOk = true)
    (hl : w.launch = .ok g)
    (hm : g.msNeeded = some m)
    (hdl : m ≤ req.config.timeout_seconds * 1000)
    (hpos : 0 < m) :
    ∃ r, (executeTrace w req).result = .ok r ∧
      r.execution_time_ms = m ∧ 0 < r.execution_time_ms := by
  rw [executeTrace_completed w req g m hv hres hready hl hm hdl,
    finalize_ok w req _ _ _ _ hx]
  exact ⟨_, rfl, rfl, hpos⟩

/-- Claim C10 amended witness: a guest that ran for half a second
reports a strictly positive execution time. -/
theorem exec_time_positive_when_elapsed_witness :
    ∃ r, (executeTrace (mkWorld (.ok okGuest)) okReq).result = .ok r ∧
      r.execution_time_ms = 500 ∧ 0 < r.execution_time_ms :=
  exec_time_positive_when_elapsed (mkWorld (.ok okGuest)) okReq okGuest
    500 (by decide) rfl rfl rfl rfl rfl (by decide) (by decide)

end FlashVM
